import Mathlib

/-!
Shallow embedding of the SOCKS4 client in `src/v4.rs` (crate `socks`).

Bytes are modelled as `Nat` (a genuine wire byte is `< 256`); the readable
side of a connected TCP socket is a `List Nat` of the bytes the proxy will
send; bytes written by the client to the socket are returned explicitly.
Fallible operations return `Except SocksError`.
-/

namespace Socks4

/-- Error taxonomy of `v4.rs`: each constructor corresponds to one
`io::Error::new(..)` site (messages: "invalid response version",
"request rejected or failed", identd-unreachable, identd-mismatch,
"invalid response code", "SOCKS4 does not support IPv6"), plus
`transport` for pass-through I/O failures such as a short read. -/
inductive SocksError where
  | invalidResponseVersion
  | requestRejected
  | identdUnreachable
  | identdMismatch
  | invalidResponseCode
  | unsupportedAddressFamily
  | transport
deriving DecidableEq, Repr

/-- `Ipv4Addr::new(a, b, c, d)` as its big-endian `u32` value
(the representation `u32::from(Ipv4Addr)` uses). -/
def ipv4New (a b c d : Nat) : Nat := ((a * 256 + b) * 256 + c) * 256 + d

/-- `Ipv4Addr::octets()`: the four big-endian bytes of the address. -/
def octets (ip : Nat) : List Nat :=
  [ip / 16777216 % 256, ip / 65536 % 256, ip / 256 % 256, ip % 256]

/-- `std::net::SocketAddrV4`: an IPv4 address (as `u32`) and a port. -/
structure SocketAddrV4 where
  ip : Nat
  port : Nat
deriving DecidableEq, Repr

/-- `std::net::SocketAddrV6` (the client only copies its fields). -/
structure SocketAddrV6 where
  ip : Nat
  port : Nat
  flowinfo : Nat
  scope_id : Nat
deriving DecidableEq, Repr

/-- `std::net::SocketAddr`. -/
inductive SocketAddr where
  | v4 (addr : SocketAddrV4)
  | v6 (addr : SocketAddrV6)
deriving DecidableEq, Repr

/-- `TargetAddr` from the crate root: a resolved IP target or a
(hostname bytes, port) pair for the SOCKS4A extension. -/
inductive TargetAddr where
  | ip (addr : SocketAddr)
  | domain (host : List Nat) (port : Nat)
deriving DecidableEq, Repr

/-- `socket.read_exact(&mut buf)` for a buffer of `n` bytes: either the
socket has `n` bytes available, which are consumed, or the read fails. -/
def read_exact (socket : List Nat) (n : Nat) : Except SocksError (List Nat × List Nat) :=
  if socket.length < n then .error .transport
  else .ok (socket.take n, socket.drop n)

/-- `ReadBytesExt::read_u8`: one byte off the front of a buffer. -/
def rdU8 (buf : List Nat) : Except SocksError (Nat × List Nat) :=
  match buf with
  | [] => .error .transport
  | b :: rest => .ok (b, rest)

/-- `ReadBytesExt::read_u16::<BigEndian>`. -/
def rdU16BE (buf : List Nat) : Except SocksError (Nat × List Nat) :=
  match buf with
  | hi :: lo :: rest => .ok (hi * 256 + lo, rest)
  | _ => .error .transport

/-- `ReadBytesExt::read_u32::<BigEndian>`. -/
def rdU32BE (buf : List Nat) : Except SocksError (Nat × List Nat) :=
  match buf with
  | b0 :: b1 :: b2 :: b3 :: rest => .ok (((b0 * 256 + b1) * 256 + b2) * 256 + b3, rest)
  | _ => .error .transport

/-- The `match` on the status byte in `read_response` (`v4.rs` lines 16-30):
90 proceeds, 91/92/93 are specific failures, anything else is
"invalid response code". -/
def status_check (code : Nat) : Except SocksError Unit :=
  if code = 90 then .ok ()
  else if code = 91 then .error .requestRejected
  else if code = 92 then .error .identdUnreachable
  else if code = 93 then .error .identdMismatch
  else .error .invalidResponseCode

/-- `read_response` (`v4.rs` lines 7-36): read exactly 8 bytes, check the
version byte is 0, map the status byte, then parse the bound port
(big-endian u16) and bound IPv4 address (big-endian u32).  Returns the
decoded `SocketAddrV4` together with the rest of the socket stream. -/
def read_response (socket : List Nat) : Except SocksError (SocketAddrV4 × List Nat) :=
  match read_exact socket 8 with
  | .error e => .error e
  | .ok (response, rest) =>
    match rdU8 response with
    | .error e => .error e
    | .ok (vn, response) =>
      if vn ≠ 0 then .error .invalidResponseVersion
      else
        match rdU8 response with
        | .error e => .error e
        | .ok (code, response) =>
          match status_check code with
          | .error e => .error e
          | .ok () =>
            match rdU16BE response with
            | .error e => .error e
            | .ok (port, response) =>
              match rdU32BE response with
              | .error e => .error e
              | .ok (ipn, _) => .ok (⟨ipn, port⟩, rest)

/-- `WriteBytesExt::write_u8` into the packet buffer. -/
def write_u8 (p : List Nat) (v : Nat) : List Nat := p ++ [v]

/-- `WriteBytesExt::write_u16::<BigEndian>`. -/
def write_u16_be (p : List Nat) (v : Nat) : List Nat := p ++ [v / 256 % 256, v % 256]

/-- `WriteBytesExt::write_u32::<BigEndian>`. -/
def write_u32_be (p : List Nat) (v : Nat) : List Nat :=
  p ++ [v / 16777216 % 256, v / 65536 % 256, v / 256 % 256, v % 256]

/-- `Write::write_all` / `Vec::extend` into the packet buffer. -/
def write_all (p : List Nat) (buf : List Nat) : List Nat := p ++ buf

/-- The packet-building part of `Socks4Stream::connect_raw`
(`v4.rs` lines 69-94): version byte 4, command byte, then per target
variant.  An IPv6 target returns the "SOCKS4 does not support IPv6" error
(in the source the two bytes already pushed into the local `packet` vec
are discarded with it, so no output is produced).  A domain target uses
the SOCKS4A placeholder address 0.0.0.1 and appends the null-terminated
hostname after the null-terminated user id. -/
def connect_packet (command : Nat) (target : TargetAddr) (userid : List Nat) :
    Except SocksError (List Nat) :=
  let packet : List Nat := []
  let packet := write_u8 packet 4
  let packet := write_u8 packet command
  match target with
  | .ip addr =>
    match addr with
    | .v4 addr =>
      let packet := write_u16_be packet addr.port
      let packet := write_u32_be packet addr.ip
      let packet := write_all packet userid
      let packet := write_u8 packet 0
      .ok packet
    | .v6 _ => .error .unsupportedAddressFamily
  | .domain host port =>
    let packet := write_u16_be packet port
    let packet := write_u32_be packet (ipv4New 0 0 0 1)
    let packet := write_all packet userid
    let packet := write_u8 packet 0
    let packet := write_all packet host
    let packet := write_u8 packet 0
    .ok packet

/-- `Socks4Stream`: the remaining readable bytes of the owned socket and
the cached proxy-side address. -/
structure Socks4Stream where
  socket : List Nat
  proxy_addr : SocketAddrV4
deriving DecidableEq, Repr

/-- `Socks4Stream::connect_raw` (`v4.rs` lines 61-103): build the request
packet, write it in full to the socket, then decode the 8-byte reply.
`proxyInput` is the byte stream the proxy sends; the second component of
the result is every byte the client wrote to the socket (empty when the
encoder rejected the target before the `write_all` call). -/
def Socks4Stream.connect_raw (command : Nat) (target : TargetAddr) (userid : List Nat)
    (proxyInput : List Nat) : Except SocksError Socks4Stream × List Nat :=
  match connect_packet command target userid with
  | .error e => (.error e, [])
  | .ok packet =>
    match read_response proxyInput with
    | .error e => (.error e, packet)
    | .ok (pa, rest) => (.ok ⟨rest, pa⟩, packet)

/-- `Socks4Stream::connect` (`v4.rs` lines 54-59): `connect_raw` with the
CONNECT command byte 1. -/
def Socks4Stream.connect (target : TargetAddr) (userid : List Nat)
    (proxyInput : List Nat) : Except SocksError Socks4Stream × List Nat :=
  Socks4Stream.connect_raw 1 target userid proxyInput

/-- `Socks4Listener` (`v4.rs` line 160): a newtype over `Socks4Stream`. -/
structure Socks4Listener where
  inner : Socks4Stream
deriving DecidableEq, Repr

/-- `Socks4Listener::bind` (`v4.rs` lines 163-168): `connect_raw` with the
BIND command byte 2, wrapping the resulting stream. -/
def Socks4Listener.bind (target : TargetAddr) (userid : List Nat)
    (proxyInput : List Nat) : Except SocksError Socks4Listener × List Nat :=
  let r := Socks4Stream.connect_raw 2 target userid proxyInput
  (r.1.map Socks4Listener.mk, r.2)

/-- `Socks4Listener::proxy_addr` (`v4.rs` lines 170-181).  `peer` is the
result of the external `peer_addr()` query on the live transport. -/
def Socks4Listener.proxy_addr (l : Socks4Listener)
    (peer : Except SocksError SocketAddr) : Except SocksError SocketAddr :=
  if octets l.inner.proxy_addr.ip ≠ [0, 0, 0, 0] then
    .ok (.v4 l.inner.proxy_addr)
  else
    match peer with
    | .error e => .error e
    | .ok (.v4 addr) => .ok (.v4 ⟨addr.ip, l.inner.proxy_addr.port⟩)
    | .ok (.v6 addr) => .ok (.v6 ⟨addr.ip, l.inner.proxy_addr.port, 0, 0⟩)

/-- `Socks4Listener::accept` (`v4.rs` lines 183-186): read and decode a
second reply from the same socket, overwrite the stored proxy address
with it, and return the inner stream (the listener is consumed). -/
def Socks4Listener.accept (l : Socks4Listener) : Except SocksError Socks4Stream :=
  match read_response l.inner.socket with
  | .error e => .error e
  | .ok (pa, rest) => .ok ⟨rest, pa⟩

end Socks4

namespace Socks4

/-- Reading exactly 8 bytes from a socket with at least 8 bytes available
yields those bytes and the remaining stream. -/
lemma read_exact_eight (b0 b1 b2 b3 b4 b5 b6 b7 : Nat) (rest : List Nat) :
    read_exact (b0 :: b1 :: b2 :: b3 :: b4 :: b5 :: b6 :: b7 :: rest) 8
      = .ok ([b0, b1, b2, b3, b4, b5, b6, b7], rest) := by
  simp [read_exact]

/-- C1: decoding an 8-byte reply buffer fails with the protocol-version error
when byte 0 is nonzero; with byte 0 zero, status byte 90 succeeds with the
decoded bound address, 91 maps to the rejected error, 92 to the
identd-unreachable error, 93 to the identd-mismatch error, and any other
status byte fails with the malformed-response ("invalid response code")
error. -/
theorem read_response_cases (b0 b1 b2 b3 b4 b5 b6 b7 : Nat) :
    (b0 ≠ 0 → read_response [b0, b1, b2, b3, b4, b5, b6, b7]
        = .error .invalidResponseVersion) ∧
    (b0 = 0 → b1 = 90 → read_response [b0, b1, b2, b3, b4, b5, b6, b7]
        = .ok (⟨((b4 * 256 + b5) * 256 + b6) * 256 + b7, b2 * 256 + b3⟩, [])) ∧
    (b0 = 0 → b1 = 91 → read_response [b0, b1, b2, b3, b4, b5, b6, b7]
        = .error .requestRejected) ∧
    (b0 = 0 → b1 = 92 → read_response [b0, b1, b2, b3, b4, b5, b6, b7]
        = .error .identdUnreachable) ∧
    (b0 = 0 → b1 = 93 → read_response [b0, b1, b2, b3, b4, b5, b6, b7]
        = .error .identdMismatch) ∧
    (b0 = 0 → b1 ≠ 90 → b1 ≠ 91 → b1 ≠ 92 → b1 ≠ 93 →
      read_response [b0, b1, b2, b3, b4, b5, b6, b7]
        = .error .invalidResponseCode) := by
  refine ⟨fun h => ?_, fun h0 h1 => ?_, fun h0 h1 => ?_, fun h0 h1 => ?_, fun h0 h1 => ?_,
    fun h0 h90 h91 h92 h93 => ?_⟩ <;>
  simp [read_response, read_exact_eight, rdU8, rdU16BE, rdU32BE, status_check, *]

/-- Concrete instances of the C1 case analysis: one reply buffer for each
branch (bad version, 90, 91, 92, 93, unknown status 0). -/
theorem read_response_cases_witness :
    read_response [4, 90, 0, 80, 1, 2, 3, 4] = .error .invalidResponseVersion ∧
    read_response [0, 90, 31, 144, 10, 0, 0, 1] = .ok (⟨167772161, 8080⟩, []) ∧
    read_response [0, 91, 0, 0, 0, 0, 0, 0] = .error .requestRejected ∧
    read_response [0, 92, 0, 0, 0, 0, 0, 0] = .error .identdUnreachable ∧
    read_response [0, 93, 0, 0, 0, 0, 0, 0] = .error .identdMismatch ∧
    read_response [0, 0, 0, 0, 0, 0, 0, 0] = .error .invalidResponseCode := by
  refine ⟨(read_response_cases 4 90 0 80 1 2 3 4).1 (by decide), ?_,
    (read_response_cases 0 91 0 0 0 0 0 0).2.2.1 rfl rfl,
    (read_response_cases 0 92 0 0 0 0 0 0).2.2.2.1 rfl rfl,
    (read_response_cases 0 93 0 0 0 0 0 0).2.2.2.2.1 rfl rfl,
    (read_response_cases 0 0 0 0 0 0 0 0).2.2.2.2.2 rfl (by decide) (by decide)
      (by decide) (by decide)⟩
  have h := (read_response_cases 0 90 31 144 10 0 0 1).2.1 rfl rfl
  simpa using h

/-- The encoder output for an IPv4 target, as one flat byte list. -/
lemma connect_packet_ip_eq (command ip port : Nat) (userid : List Nat) :
    connect_packet command (.ip (.v4 ⟨ip, port⟩)) userid
      = .ok ([4, command, port / 256 % 256, port % 256,
              ip / 16777216 % 256, ip / 65536 % 256, ip / 256 % 256, ip % 256]
             ++ userid ++ [0]) := by
  simp [connect_packet, write_u8, write_u16_be, write_u32_be, write_all]

/-- The encoder output for a domain target, as one flat byte list. -/
lemma connect_packet_domain_eq (command port : Nat) (host userid : List Nat) :
    connect_packet command (.domain host port) userid
      = .ok ([4, command, port / 256 % 256, port % 256, 0, 0, 0, 1]
             ++ userid ++ [0] ++ host ++ [0]) := by
  simp [connect_packet, write_u8, write_u16_be, write_u32_be, write_all, ipv4New]

/-- C2: for every command byte, IPv4 target and user id, the encoded request
is exactly version byte 4, the command byte, the port as big-endian u16, the
address as big-endian u32, the user-id bytes, and a single 0 terminator —
nothing else. -/
theorem connect_packet_ip_layout (command ip port : Nat) (userid : List Nat) :
    connect_packet command (.ip (.v4 ⟨ip, port⟩)) userid
      = .ok ([4, command, port / 256 % 256, port % 256,
              ip / 16777216 % 256, ip / 65536 % 256, ip / 256 % 256, ip % 256]
             ++ userid ++ [0]) :=
  connect_packet_ip_eq command ip port userid

/-- C3: for every domain target, the encoded request's 4-byte address field
(bytes 4-7) equals 0.0.0.1 and the hostname bytes appear immediately after
the user id terminator, themselves terminated by a final 0 byte. -/
theorem connect_packet_domain_layout (command port : Nat) (host userid : List Nat) :
    connect_packet command (.domain host port) userid
      = .ok ([4, command, port / 256 % 256, port % 256, 0, 0, 0, 1]
             ++ userid ++ [0] ++ host ++ [0]) ∧
    (([4, command, port / 256 % 256, port % 256, 0, 0, 0, 1]
        ++ userid ++ [0] ++ host ++ [0]).drop 4).take 4 = octets (ipv4New 0 0 0 1) ∧
    ([4, command, port / 256 % 256, port % 256, 0, 0, 0, 1]
        ++ userid ++ [0] ++ host ++ [0]).drop (9 + userid.length) = host ++ [0] := by
  refine ⟨connect_packet_domain_eq command port host userid, by simp [octets, ipv4New], ?_⟩
  have h3 : [4, command, port / 256 % 256, port % 256, 0, 0, 0, 1]
      ++ userid ++ [0] ++ host ++ [0]
      = ([4, command, port / 256 % 256, port % 256, 0, 0, 0, 1] ++ (userid ++ [0]))
        ++ (host ++ [0]) := by simp
  rw [h3, List.drop_left' (by simp; omega)]

/-- C4: for every IPv6 target, the encoder fails with the
unsupported-address-family error before anything reaches the socket:
`connect_raw` returns that error and the bytes written to the socket are
empty, for every command, user id and proxy input. -/
theorem connect_raw_ipv6_rejected (command : Nat) (addr6 : SocketAddrV6)
    (userid proxyInput : List Nat) :
    connect_packet command (.ip (.v6 addr6)) userid = .error .unsupportedAddressFamily ∧
    (Socks4Stream.connect_raw command (.ip (.v6 addr6)) userid proxyInput).1
      = .error .unsupportedAddressFamily ∧
    (Socks4Stream.connect_raw command (.ip (.v6 addr6)) userid proxyInput).2 = [] := by
  simp [connect_packet, Socks4Stream.connect_raw]

/-- C5: when the proxy reply has version byte 0 and status 90, `connect`
succeeds and the stream's `proxy_addr` is exactly the address decoded from
reply bytes 2-3 (big-endian port) and 4-7 (big-endian IPv4 address), for
IPv4 and for domain targets; in particular reply
00 5A 1F 90 0A 00 00 01 yields proxy address 10.0.0.1:8080. -/
theorem connect_success_proxy_addr :
    (∀ (ip port : Nat) (userid : List Nat) (b2 b3 b4 b5 b6 b7 : Nat) (rest : List Nat),
      ((Socks4Stream.connect (.ip (.v4 ⟨ip, port⟩)) userid
          (0 :: 90 :: b2 :: b3 :: b4 :: b5 :: b6 :: b7 :: rest)).1).map
            Socks4Stream.proxy_addr
        = .ok ⟨((b4 * 256 + b5) * 256 + b6) * 256 + b7, b2 * 256 + b3⟩) ∧
    (∀ (host : List Nat) (port : Nat) (userid : List Nat) (b2 b3 b4 b5 b6 b7 : Nat)
        (rest : List Nat),
      ((Socks4Stream.connect (.domain host port) userid
          (0 :: 90 :: b2 :: b3 :: b4 :: b5 :: b6 :: b7 :: rest)).1).map
            Socks4Stream.proxy_addr
        = .ok ⟨((b4 * 256 + b5) * 256 + b6) * 256 + b7, b2 * 256 + b3⟩) ∧
    ((Socks4Stream.connect (.ip (.v4 ⟨ipv4New 192 168 0 2, 80⟩)) []
        [0, 90, 31, 144, 10, 0, 0, 1]).1).map Socks4Stream.proxy_addr
      = .ok ⟨ipv4New 10 0 0 1, 8080⟩ := by
  refine ⟨fun ip port userid b2 b3 b4 b5 b6 b7 rest => ?_,
    fun host port userid b2 b3 b4 b5 b6 b7 rest => ?_, ?_⟩
  · simp [Socks4Stream.connect, Socks4Stream.connect_raw, connect_packet_ip_eq,
      read_response, read_exact_eight, rdU8, rdU16BE, rdU32BE, status_check, Except.map]
  · simp [Socks4Stream.connect, Socks4Stream.connect_raw, connect_packet_domain_eq,
      read_response, read_exact_eight, rdU8, rdU16BE, rdU32BE, status_check, Except.map]
  · simp [Socks4Stream.connect, Socks4Stream.connect_raw, connect_packet_ip_eq,
      read_response, read_exact_eight, rdU8, rdU16BE, rdU32BE, status_check, Except.map,
      ipv4New]

/-- C6: the listener's `proxy_addr` returns the stored bound address verbatim
when its IPv4 address is not all-zero; when it is all-zero it combines the
transport's live peer address (same family) with the stored bound port, and
it propagates a failure of the peer-address query. -/
theorem listener_proxy_addr_cases (l : Socks4Listener)
    (peer : Except SocksError SocketAddr) :
    (octets l.inner.proxy_addr.ip ≠ [0, 0, 0, 0] →
      Socks4Listener.proxy_addr l peer = .ok (.v4 l.inner.proxy_addr)) ∧
    (octets l.inner.proxy_addr.ip = [0, 0, 0, 0] →
      (∀ a4 : SocketAddrV4, peer = .ok (.v4 a4) →
        Socks4Listener.proxy_addr l peer
          = .ok (.v4 ⟨a4.ip, l.inner.proxy_addr.port⟩)) ∧
      (∀ a6 : SocketAddrV6, peer = .ok (.v6 a6) →
        Socks4Listener.proxy_addr l peer
          = .ok (.v6 ⟨a6.ip, l.inner.proxy_addr.port, 0, 0⟩)) ∧
      (∀ e : SocksError, peer = .error e →
        Socks4Listener.proxy_addr l peer = .error e)) := by
  refine ⟨fun h => ?_, fun h => ⟨fun a4 hp => ?_, fun a6 hp => ?_, fun e hp => ?_⟩⟩ <;>
    simp [Socks4Listener.proxy_addr, *]

/-- Concrete instances of the C6 case analysis: a nonzero bound address is
returned verbatim; 0.0.0.0 is replaced by the peer address 203.0.113.5 with
the bound port 8080; the IPv6 peer family is preserved; a peer-query failure
propagates. -/
theorem listener_proxy_addr_cases_witness :
    Socks4Listener.proxy_addr ⟨⟨[], ⟨ipv4New 10 0 0 1, 8080⟩⟩⟩
        (.ok (.v4 ⟨ipv4New 203 0 113 5, 1234⟩))
      = .ok (.v4 ⟨ipv4New 10 0 0 1, 8080⟩) ∧
    Socks4Listener.proxy_addr ⟨⟨[], ⟨0, 8080⟩⟩⟩
        (.ok (.v4 ⟨ipv4New 203 0 113 5, 1234⟩))
      = .ok (.v4 ⟨ipv4New 203 0 113 5, 8080⟩) ∧
    Socks4Listener.proxy_addr ⟨⟨[], ⟨0, 8080⟩⟩⟩
        (.ok (.v6 ⟨77, 1234, 9, 9⟩))
      = .ok (.v6 ⟨77, 8080, 0, 0⟩) ∧
    Socks4Listener.proxy_addr ⟨⟨[], ⟨0, 8080⟩⟩⟩ (.error .transport)
      = .error .transport := by
  refine ⟨(listener_proxy_addr_cases ⟨⟨[], ⟨ipv4New 10 0 0 1, 8080⟩⟩⟩
      (.ok (.v4 ⟨ipv4New 203 0 113 5, 1234⟩))).1 (by decide), ?_, ?_, ?_⟩
  · exact ((listener_proxy_addr_cases ⟨⟨[], ⟨0, 8080⟩⟩⟩
      (.ok (.v4 ⟨ipv4New 203 0 113 5, 1234⟩))).2 (by decide)).1
        ⟨ipv4New 203 0 113 5, 1234⟩ rfl
  · exact ((listener_proxy_addr_cases ⟨⟨[], ⟨0, 8080⟩⟩⟩
      (.ok (.v6 ⟨77, 1234, 9, 9⟩))).2 (by decide)).2.1 ⟨77, 1234, 9, 9⟩ rfl
  · exact ((listener_proxy_addr_cases ⟨⟨[], ⟨0, 8080⟩⟩⟩
      (.error .transport)).2 (by decide)).2.2 .transport rfl

/-- C7: `accept` decodes a second 8-byte reply from the listener's own socket
with the same `read_response` decoder; on success it returns the inner
stream with the stored bound address overwritten by the second decode and
the same transport advanced past the reply, and it propagates a decode
failure.  The listener itself is consumed: `accept` takes it by value and
only the plain stream remains. -/
theorem accept_reads_second_reply (l : Socks4Listener) :
    (∀ (pa : SocketAddrV4) (rest : List Nat),
      read_response l.inner.socket = .ok (pa, rest) →
        Socks4Listener.accept l = .ok ⟨rest, pa⟩) ∧
    (∀ e : SocksError, read_response l.inner.socket = .error e →
      Socks4Listener.accept l = .error e) := by
  refine ⟨fun pa rest h => ?_, fun e h => ?_⟩ <;> simp [Socks4Listener.accept, h]

/-- Concrete instances of C7: a granted second reply overwrites the bound
address 0.0.0.0:8080 with 1.2.3.4:80; a rejected second reply propagates. -/
theorem accept_reads_second_reply_witness :
    Socks4Listener.accept ⟨⟨[0, 90, 0, 80, 1, 2, 3, 4], ⟨0, 8080⟩⟩⟩
      = .ok ⟨[], ⟨ipv4New 1 2 3 4, 80⟩⟩ ∧
    Socks4Listener.accept ⟨⟨[0, 91, 0, 80, 1, 2, 3, 4], ⟨0, 8080⟩⟩⟩
      = .error .requestRejected := by
  constructor
  · exact (accept_reads_second_reply ⟨⟨[0, 90, 0, 80, 1, 2, 3, 4], ⟨0, 8080⟩⟩⟩).1
      ⟨ipv4New 1 2 3 4, 80⟩ [] rfl
  · exact (accept_reads_second_reply ⟨⟨[0, 91, 0, 80, 1, 2, 3, 4], ⟨0, 8080⟩⟩⟩).2
      .requestRejected rfl

/-- C8: for every valid (command, IPv4 target, user id) triple, reading the
encoded request back with the big-endian primitives the decoder uses
recovers the version byte 4, the command byte, the port and the address. -/
theorem encode_decode_roundtrip (command ip port : Nat) (userid : List Nat)
    (_hbytes : command < 256) (hport : port < 65536) (hip : ip < 4294967296) :
    ∀ p : List Nat, connect_packet command (.ip (.v4 ⟨ip, port⟩)) userid = .ok p →
      rdU8 p = .ok (4, p.drop 1) ∧
      rdU8 (p.drop 1) = .ok (command, p.drop 2) ∧
      rdU16BE (p.drop 2) = .ok (port, p.drop 4) ∧
      rdU32BE (p.drop 4) = .ok (ip, p.drop 8) := by
  intro p hpk
  rw [connect_packet_ip_eq] at hpk
  have hp2 : p = [4, command, port / 256 % 256, port % 256,
      ip / 16777216 % 256, ip / 65536 % 256, ip / 256 % 256, ip % 256]
      ++ userid ++ [0] := by
    cases hpk
    rfl
  subst hp2
  refine ⟨by simp [rdU8], by simp [rdU8], ?_, ?_⟩
  · simp [rdU16BE]
    omega
  · simp [rdU32BE]
    omega

/-- Concrete instance of C8: command 1, target 10.0.0.1:443, user id [97]. -/
theorem encode_decode_roundtrip_witness :
    rdU8 ([4, 1, 1, 187, 10, 0, 0, 1, 97, 0] : List Nat)
      = .ok (4, ([4, 1, 1, 187, 10, 0, 0, 1, 97, 0] : List Nat).drop 1) ∧
    rdU8 (([4, 1, 1, 187, 10, 0, 0, 1, 97, 0] : List Nat).drop 1)
      = .ok (1, ([4, 1, 1, 187, 10, 0, 0, 1, 97, 0] : List Nat).drop 2) ∧
    rdU16BE (([4, 1, 1, 187, 10, 0, 0, 1, 97, 0] : List Nat).drop 2)
      = .ok (443, ([4, 1, 1, 187, 10, 0, 0, 1, 97, 0] : List Nat).drop 4) ∧
    rdU32BE (([4, 1, 1, 187, 10, 0, 0, 1, 97, 0] : List Nat).drop 4)
      = .ok (167772161, ([4, 1, 1, 187, 10, 0, 0, 1, 97, 0] : List Nat).drop 8) :=
  encode_decode_roundtrip 1 167772161 443 [97] (by decide) (by decide) (by decide)
    [4, 1, 1, 187, 10, 0, 0, 1, 97, 0] rfl

/-- Splitting a list containing a zero at its first zero. -/
lemma mem_zero_split (l : List Nat) (h : 0 ∈ l) :
    l.takeWhile (fun b => b != 0) ++ 0 :: (l.dropWhile (fun b => b != 0)).tail = l := by
  induction l with
  | nil => simp at h
  | cons a t ih =>
    by_cases ha : a = 0
    · subst ha
      simp [List.takeWhile_cons, List.dropWhile_cons]
    · have ht : 0 ∈ t := by
        rcases List.mem_cons.mp h with h1 | h1
        · exact absurd h1.symm ha
        · exact h1
      simp [List.takeWhile_cons, List.dropWhile_cons, ha, ih ht]

/-- C9: a user id containing an embedded 0 byte is not rejected: the encoder
succeeds and writes the user-id bytes verbatim, so the packet equals the
packet of the user id truncated at its first 0 followed by the leftover
bytes — on the wire the embedded 0 silently truncates the user id. -/
theorem userid_embedded_null (command ip port : Nat) (userid : List Nat)
    (h : 0 ∈ userid) :
    connect_packet command (.ip (.v4 ⟨ip, port⟩)) userid
      = .ok ([4, command, port / 256 % 256, port % 256,
              ip / 16777216 % 256, ip / 65536 % 256, ip / 256 % 256, ip % 256]
             ++ userid ++ [0]) ∧
    (connect_packet command (.ip (.v4 ⟨ip, port⟩))
        (userid.takeWhile (fun b => b != 0))).map
      (fun q => q ++ ((userid.dropWhile (fun b => b != 0)).tail ++ [0]))
      = connect_packet command (.ip (.v4 ⟨ip, port⟩)) userid := by
  refine ⟨connect_packet_ip_eq command ip port userid, ?_⟩
  rw [connect_packet_ip_eq, connect_packet_ip_eq]
  simp [Except.map]
  conv_rhs => rw [← mem_zero_split userid h]
  simp

/-- Concrete instance of C9: user id [65, 0, 66] is encoded verbatim without
rejection, and the packet extends the packet of the truncated user id [65]. -/
theorem userid_embedded_null_witness :
    connect_packet 1 (.ip (.v4 ⟨0, 0⟩)) [65, 0, 66]
      = .ok ([4, 1, 0 / 256 % 256, 0 % 256,
              0 / 16777216 % 256, 0 / 65536 % 256, 0 / 256 % 256, 0 % 256]
             ++ [65, 0, 66] ++ [0]) ∧
    (connect_packet 1 (.ip (.v4 ⟨0, 0⟩))
        (([65, 0, 66] : List Nat).takeWhile (fun b => b != 0))).map
      (fun q => q ++ ((([65, 0, 66] : List Nat).dropWhile (fun b => b != 0)).tail ++ [0]))
      = connect_packet 1 (.ip (.v4 ⟨0, 0⟩)) [65, 0, 66] :=
  userid_embedded_null 1 0 0 [65, 0, 66] (by decide)

/-- C10: `bind` is `connect` with the command byte set to 2 instead of 1: for
every target, user id and proxy input, the bytes `bind` writes are exactly
the bytes `connect` writes with byte 1 replaced by 2, and the resulting
listener wraps the identical stream `connect` would produce. -/
theorem bind_refines_connect (target : TargetAddr) (userid proxyInput : List Nat) :
    (Socks4Listener.bind target userid proxyInput).1
      = ((Socks4Stream.connect target userid proxyInput).1).map Socks4Listener.mk ∧
    (Socks4Listener.bind target userid proxyInput).2
      = ((Socks4Stream.connect target userid proxyInput).2).set 1 2 := by
  unfold Socks4Listener.bind Socks4Stream.connect Socks4Stream.connect_raw
  cases target with
  | ip addr =>
    cases addr with
    | v4 a =>
      rw [connect_packet_ip_eq, connect_packet_ip_eq]
      cases hr : read_response proxyInput with
      | error e => simp [Except.map, List.set]
      | ok pr => simp [Except.map, List.set]
    | v6 a => simp [connect_packet, Except.map, List.set]
  | domain host port =>
    rw [connect_packet_domain_eq, connect_packet_domain_eq]
    cases hr : read_response proxyInput with
    | error e => simp [Except.map, List.set]
    | ok pr => simp [Except.map, List.set]

end Socks4
